import Mathlib

/-!
# Verification of the furniture-marketplace grouping core

Shallow embedding of the similarity / grouping code of the repository
(`backend/visual_grouping.py`, `furniture_classifier.py`,
`backend/furniture_classifier.py`, `backend/main.py`) together with proofs
settling the frozen claims about it.

Modelling conventions:
* Python `str` is Lean `String`; `str.lower()`, `str.strip()` and `str.split()`
  are embedded as the executable functions `pyLower`, `pyStrip`, `pyWords`
  below (ASCII lower-casing, whitespace stripping, whitespace-run splitting,
  exactly the behaviour exercised by the code's inputs).
* Python float arithmetic is modelled over `ℚ` (the weights 0.4/0.3/0.2/0.1
  and threshold 0.7 become exact rationals).
* The dictionaries flowing through the pipeline are modelled by the `Item`
  structure holding exactly the keys the embedded functions read; the
  upstream workflow nodes always populate those keys, so `dict.get(k, d)`
  reads are modelled as plain field accesses.
-/

namespace FurnitureMarket

/-- ASCII lower-casing of a string, as Python `str.lower()` on the
attribute strings handled by this code. -/
def pyLower (s : String) : String := ⟨s.data.map Char.toLower⟩

/-- Python `str.strip()`: drop leading and trailing whitespace. -/
def pyStrip (s : String) : String :=
  ⟨((s.data.dropWhile Char.isWhitespace).reverse.dropWhile Char.isWhitespace).reverse⟩

/-- Helper for `pyWords`: scan the characters, accumulating the current word
(reversed) in `acc`, emitting a word at each whitespace run boundary. -/
def pyWordsAux : List Char → List Char → List (List Char)
  | [], acc => if acc.isEmpty then [] else [acc.reverse]
  | c :: cs, acc =>
    if c.isWhitespace then
      if acc.isEmpty then pyWordsAux cs []
      else acc.reverse :: pyWordsAux cs []
    else pyWordsAux cs (c :: acc)

/-- Python `str.split()` (no argument): split on whitespace runs, never
producing empty tokens. -/
def pyWords (s : String) : List String :=
  (pyWordsAux s.data []).map (fun l => ⟨l⟩)

/-- Python substring test `needle in hay`. -/
def pyIn (needle hay : String) : Bool := decide (needle.data <:+: hay.data)

/-- `FurnitureAttributes` dataclass of `backend/visual_grouping.py`:
structured representation of one image's furniture attributes. -/
structure FurnitureAttributes where
  type : String
  color : String
  material : String
  style : String
  condition : String
  size_indicators : List String
deriving DecidableEq, Repr, Inhabited

/-- One analysis item of the pipeline: the dictionary keys that the grouping
code reads from `item["vision"]`, `item["classification"]` and
`item["pricing"]`. -/
structure Item where
  image_index : ℕ
  furniture_type : String
  primary_color : String
  material_appearance : String
  style_indicators : String
  condition_visible : String
  image_path : String
  category : String
  subcategory : String
  material : String
  style : String
  condition : String
  detailed_analysis : String
  classification_confidence : ℚ
  facebook_category : String
  suggested_price : ℤ
deriving DecidableEq, Repr, Inhabited

/-- Size keywords scanned by `FurnitureAttributes._extract_size_indicators`. -/
def size_keywords : List String :=
  ["small", "medium", "large", "mini", "compact", "oversized",
   "twin", "full", "queen", "king", "single", "double", "triple",
   "narrow", "wide", "tall", "short", "low", "high"]

/-- `FurnitureAttributes._extract_size_indicators`: collect size keywords
appearing in the furniture type, subcategory and detailed analysis texts
(the Python `list(set(...))` is modelled as `dedup`). -/
def extract_size_indicators (ftype subcat detail : String) : List String :=
  (([ftype, subcat, detail].map (fun t =>
      if t = "" then []
      else (pyWords (pyLower t)).filter (fun w => size_keywords.contains w))).flatten).dedup

/-- `FurnitureAttributes.from_item`: lower-cased attribute extraction from an
analysis item. -/
def FurnitureAttributes.from_item (it : Item) : FurnitureAttributes :=
  { type := pyLower it.furniture_type
    color := pyLower it.primary_color
    material := pyLower it.material
    style := pyLower it.style
    condition := pyLower it.condition
    size_indicators :=
      extract_size_indicators it.furniture_type it.subcategory it.detailed_analysis }

/-- The inner `text_similarity` of
`EnhancedGroupingAgent._calculate_furniture_similarity`
(`backend/visual_grouping.py` lines 313–327): lower/strip, exact match,
token-set Jaccard ratio, with 0.0 when either side is empty. -/
def text_similarity (text1 text2 : String) : ℚ :=
  let t1 := pyStrip (pyLower text1)
  let t2 := pyStrip (pyLower text2)
  if t1 = "" ∨ t2 = "" then 0
  else if t1 = t2 then 1
  else
    let words1 := (pyWords t1).toFinset
    let words2 := (pyWords t2).toFinset
    if words1.Nonempty ∧ words2.Nonempty then
      let inter := (words1 ∩ words2).card
      let uni := (words1 ∪ words2).card
      if 0 < uni then (inter : ℚ) / (uni : ℚ) else 0
    else 0

/-- The weight table of `_calculate_furniture_similarity`
(furniture_type 0.4, color 0.3, material 0.2, style 0.1), in dictionary
insertion order. -/
def similarity_weights : List (String × ℚ) :=
  [("furniture_type", 2/5), ("color", 3/10), ("material", 1/5), ("style", 1/10)]

/-- `EnhancedGroupingAgent._calculate_furniture_similarity`
(`backend/visual_grouping.py` lines 311–347): per-field text similarities
combined as `sum(similarities[attr] * weights[attr] for attr in weights)`. -/
def calculate_furniture_similarity (a1 a2 : FurnitureAttributes) : ℚ :=
  let sims : String → ℚ := fun attr =>
    if attr = "furniture_type" then text_similarity a1.type a2.type
    else if attr = "color" then text_similarity a1.color a2.color
    else if attr = "material" then text_similarity a1.material a2.material
    else if attr = "style" then text_similarity a1.style a2.style
    else 0
  (similarity_weights.map (fun p => sims p.1 * p.2)).sum

/-- One output group, with the dictionary keys produced by
`_create_group_from_items` / `_ai_grouping_agent` / `_grouping_node`.
The `ai_reasoning` / `ai_description` keys are absent from the groups built
by `_grouping_node`'s own branches, hence `Option`. -/
structure Group where
  group_id : String
  primary_category : String
  subcategory : String
  style : String
  material : String
  all_items : List Item
  total_price : ℤ
  avg_confidence : ℚ
  avg_price : ℤ
  ai_reasoning : Option String
  ai_description : Option String
deriving DecidableEq, Repr

/-- `EnhancedGroupingAgent._create_group_from_items`
(`backend/visual_grouping.py` lines 400–424). The Python function returns an
empty dict on an empty item list (never reached from its call sites); that
case is modelled by a junk group. -/
def create_group_from_items (items : List Item) (gid : String) : Group :=
  match items with
  | [] => ⟨"", "", "", "", "", [], 0, 0, 0, none, none⟩
  | primary :: _ =>
    { group_id := gid
      primary_category := primary.category
      subcategory := primary.subcategory
      style := primary.style
      material := primary.material
      all_items := items
      total_price := (items.map (·.suggested_price)).sum
      avg_confidence := (items.map (·.classification_confidence)).sum / (items.length : ℚ)
      avg_price := Int.fdiv ((items.map (·.suggested_price)).sum) (items.length : ℤ)
      ai_reasoning := some ("Enhanced grouping: " ++ toString items.length ++
        " photos grouped by visual similarity")
      ai_description := some primary.furniture_type }

/-- `EnhancedGroupingAgent._create_individual_groups`
(`backend/visual_grouping.py` lines 426–428): one group per item. -/
def create_individual_groups (items : List Item) : List Group :=
  items.enum.map (fun p => create_group_from_items [p.2] ("single_" ++ toString p.1))

/-- The greedy clustering loop shared by `_group_by_structured_comparison`
and `_group_by_heuristics`: iterate indices in input order; each
still-unassigned index starts a group and absorbs every later unassigned
index `j` with `absorb i j`.  The pending list of unassigned indices shrinks
at each step, so the recursion is driven by a fuel argument that the top
call sets to the full index count (never exhausted, see
`greedyGroups_flatten_perm`). -/
def greedyGroups (absorb : ℕ → ℕ → Bool) : ℕ → List ℕ → List (List ℕ)
  | 0, _ => []
  | _ + 1, [] => []
  | fuel + 1, i :: rest =>
    (i :: rest.filter (fun j => absorb i j)) ::
      greedyGroups absorb fuel (rest.filter (fun j => !(absorb i j)))

/-- The pairwise similarity matrix of `_group_by_structured_comparison`
(`backend/visual_grouping.py` lines 274–284): 1.0 on the diagonal, otherwise
`_calculate_furniture_similarity` of the two items' attribute records. -/
def simMatrix (attrs : List FurnitureAttributes) (i j : ℕ) : ℚ :=
  if i = j then 1
  else calculate_furniture_similarity (attrs.getD i default) (attrs.getD j default)

/-- The grouping threshold of `_group_by_structured_comparison` (0.7). -/
def groupingThreshold : ℚ := 7/10

/-- Index-level result of `_group_by_structured_comparison`
(`backend/visual_grouping.py` lines 286–302): greedy clustering of
`range n` absorbing later indices with similarity ≥ 0.7. -/
def structuredGroupIndices (items : List Item) : List (List ℕ) :=
  let attrs := items.map FurnitureAttributes.from_item
  greedyGroups (fun i j => decide (groupingThreshold ≤ simMatrix attrs i j))
    items.length (List.range items.length)

/-- `EnhancedGroupingAgent._group_by_structured_comparison`
(`backend/visual_grouping.py` lines 268–309): the greedy index groups mapped
to `Group` values via `_create_group_from_items`. -/
def group_by_structured_comparison (items : List Item) : List Group :=
  (structuredGroupIndices items).enum.map
    (fun p => create_group_from_items (p.2.filterMap items.get?)
      ("structured_group_" ++ toString p.1))

/-- The furniture-category synonym table of `EnhancedGroupingAgent.__init__`
(`backend/visual_grouping.py` lines 75–96). -/
def furniture_synonyms : List (String × List String) :=
  [("seating", ["chair", "seat", "stool", "bench", "armchair", "recliner",
     "rocker", "gaming chair", "office chair", "dining chair"]),
   ("tables", ["table", "desk", "surface", "workstation", "console",
     "coffee table", "dining table", "end table", "side table"]),
   ("storage", ["cabinet", "dresser", "shelf", "bookcase", "bookshelf",
     "chest", "armoire", "wardrobe", "hutch", "credenza"]),
   ("beds", ["bed", "mattress", "headboard", "footboard", "bedframe",
     "daybed", "futon", "sofa bed"]),
   ("sofas", ["sofa", "couch", "sectional", "loveseat", "settee",
     "divan", "chaise", "ottoman"])]

/-- The colour synonym table of `EnhancedGroupingAgent.__init__`
(`backend/visual_grouping.py` lines 98–105). -/
def color_groups : List (String × List String) :=
  [("white_family", ["white", "off-white", "ivory", "cream", "beige", "ecru"]),
   ("black_family", ["black", "ebony", "charcoal", "dark gray", "dark grey"]),
   ("brown_family", ["brown", "tan", "coffee", "mocha", "chocolate", "walnut", "oak"]),
   ("gray_family", ["gray", "grey", "silver", "slate", "ash"]),
   ("wood_family", ["wood", "wooden", "natural", "pine", "cedar", "maple"])]

/-- `EnhancedGroupingAgent._should_group_heuristic`
(`backend/visual_grouping.py` lines 385–398): exact type and colour match,
or any shared furniture-category keyword contained (as a substring) in both
types. -/
def should_group_heuristic (type1 color1 type2 color2 : String) : Bool :=
  if type1 ≠ "" ∧ type2 ≠ "" ∧ type1 = type2 ∧
     color1 ≠ "" ∧ color2 ≠ "" ∧ color1 = color2 then true
  else
    furniture_synonyms.any (fun cat =>
      cat.2.any (fun kw => pyIn kw type1) && cat.2.any (fun kw => pyIn kw type2))

/-- Index-level result of `EnhancedGroupingAgent._group_by_heuristics`
(`backend/visual_grouping.py` lines 349–383): the same greedy loop, absorbing
by `_should_group_heuristic` on the lower-cased type and colour fields. -/
def heuristicGroupIndices (items : List Item) : List (List ℕ) :=
  greedyGroups (fun i j =>
      should_group_heuristic
        (pyLower (items.getD i default).furniture_type)
        (pyLower (items.getD i default).primary_color)
        (pyLower (items.getD j default).furniture_type)
        (pyLower (items.getD j default).primary_color))
    items.length (List.range items.length)

/-- `EnhancedGroupingAgent._group_by_heuristics` as `Group` values. -/
def group_by_heuristics (items : List Item) : List Group :=
  (heuristicGroupIndices items).enum.map
    (fun p => create_group_from_items (p.2.filterMap items.get?)
      ("heuristic_group_" ++ toString p.1))

/-- `EnhancedGroupingAgent.group_furniture_images`
(`backend/visual_grouping.py` lines 107–138).  Inputs of length ≤ 1 go
straight to `_create_individual_groups`.  Of the strategy chain, the
visual-embedding method needs the external OpenAI client and image files
(an external collaborator, out of the core's scope), so the deterministic
behaviour modelled here is its first in-process fallback, the structured
comparison (which cannot raise), with `_group_by_heuristics` as the final
fallback behind it. -/
def group_furniture_images (items : List Item) : List Group :=
  if items.length ≤ 1 then create_individual_groups items
  else group_by_structured_comparison items

/-- One group of the parsed LLM grouping response consumed by
`_ai_grouping_agent` (`furniture_classifier.py` lines 500–546); each field
is read with `dict.get` and a default, hence `Option`. -/
structure AIGroup where
  group_id : Option String
  image_indices : Option (List ℕ)
  reasoning : Option String
  furniture_description : Option String
deriving DecidableEq, Repr

/-- The body of the `for ai_group in grouping_result["groups"]` loop of
`_ai_grouping_agent` (`furniture_classifier.py` lines 510–543): skip groups
with an empty index list, drop out-of-range indices, otherwise append the
converted group. -/
def aiGroupStep (all_items : List Item) (groups : List Group) (ag : AIGroup) :
    List Group :=
  let image_indices := ag.image_indices.getD []
  if image_indices.isEmpty then groups
  else
    let group_items :=
      (image_indices.filter (fun idx => decide (idx < all_items.length))).filterMap
        all_items.get?
    if group_items.isEmpty then groups
    else
      let primary := group_items.headD default
      let total_price := (group_items.map (·.suggested_price)).sum
      let avg_confidence :=
        (group_items.map (·.classification_confidence)).sum / (group_items.length : ℚ)
      groups ++
        [{ group_id := ag.group_id.getD ("group_" ++ toString groups.length)
           primary_category := primary.category
           subcategory := primary.subcategory
           style := primary.style
           material := primary.material
           all_items := group_items
           total_price := total_price
           avg_confidence := avg_confidence
           avg_price := Int.fdiv total_price (group_items.length : ℤ)
           ai_reasoning := some (ag.reasoning.getD "AI grouped these images")
           ai_description := some (ag.furniture_description.getD "Furniture") }]

/-- `LangGraphFurnitureClassifier._ai_grouping_agent`
(`furniture_classifier.py` lines 430–550).  The LLM call and JSON parse are
external; their outcome enters as `resp`: `none` models a response that is
unparseable or lacks the `"groups"` key (the code raises), `some ags` a
parsed `groups` list.  No partition validation is performed on `ags`. -/
def ai_grouping_agent (all_items : List Item) (resp : Option (List AIGroup)) :
    Except String (List Group) :=
  match resp with
  | none => Except.error "Invalid grouping response from AI"
  | some ags => Except.ok (ags.foldl (aiGroupStep all_items) [])

/-- The single-image group built inline by `_grouping_node`
(`furniture_classifier.py` lines 390–400) from `all_items[0]`. -/
def singleItemGroup (all_items : List Item) (it : Item) : Group :=
  { group_id := "group_0"
    primary_category := it.category
    subcategory := it.subcategory
    style := it.style
    material := it.material
    all_items := all_items
    total_price := it.suggested_price
    avg_confidence := it.classification_confidence
    avg_price := it.suggested_price
    ai_reasoning := none
    ai_description := none }

/-- The per-item fallback groups built by `_grouping_node` when
`_ai_grouping_agent` raises (`furniture_classifier.py` lines 408–421). -/
def grouping_node_fallback (all_items : List Item) : List Group :=
  all_items.enum.map (fun p =>
    { group_id := "group_" ++ toString p.1
      primary_category := p.2.category
      subcategory := p.2.subcategory
      style := p.2.style
      material := p.2.material
      all_items := [p.2]
      total_price := p.2.suggested_price
      avg_confidence := p.2.classification_confidence
      avg_price := p.2.suggested_price
      ai_reasoning := none
      ai_description := none })

/-- `LangGraphFurnitureClassifier._grouping_node`
(`furniture_classifier.py` lines 373–428).  In the `len(all_items) <= 1`
branch the code reads `all_items[0]`; on an empty list that read raises an
uncaught `IndexError`, modelled by `none`. -/
def grouping_node (all_items : List Item) (resp : Option (List AIGroup)) :
    Option (List Group) :=
  if all_items.length ≤ 1 then
    match all_items with
    | [] => none
    | x :: _ => some [singleItemGroup all_items x]
  else
    match ai_grouping_agent all_items resp with
    | Except.ok gs => some gs
    | Except.error _ => some (grouping_node_fallback all_items)

/-- Rotating fallback colour vocabulary of `_vision_analysis_node`
(`furniture_classifier.py` line 194). -/
def fallback_colors : List String :=
  ["Brown", "Black", "White", "Gray", "Blue", "Red", "Green", "Wood", "Beige", "Silver"]

/-- Rotating fallback furniture-type vocabulary (`furniture_classifier.py`
line 195). -/
def fallback_types : List String :=
  ["Chair", "Table", "Sofa", "Desk", "Cabinet", "Bed", "Dresser", "Bookshelf",
   "Nightstand", "Ottoman"]

/-- Rotating fallback material vocabulary (`furniture_classifier.py`
line 196). -/
def fallback_materials : List String :=
  ["Wood", "Metal", "Fabric", "Leather", "Plastic", "Glass", "Composite",
   "Wicker", "Stone", "Ceramic"]

/-- Rotating fallback style vocabulary (`furniture_classifier.py` line 197). -/
def fallback_styles : List String :=
  ["Modern", "Traditional", "Contemporary", "Rustic", "Industrial",
   "Scandinavian", "Vintage", "Minimalist", "Classic", "Farmhouse"]

/-- The vision-analysis result dictionary appended per image by
`_vision_analysis_node`, flattened (the `visual_details` sub-dict inlined).
`error_msg` models the `"error"` key of the fallback records; the
`fallback_used` key is absent from the backend variant's fallback record,
modelled as `false` there. -/
structure VisionResult where
  furniture_detected : Bool
  furniture_type : String
  primary_color : String
  material_appearance : String
  style_indicators : String
  condition_visible : String
  brand_visible : Bool
  unique_features : List String
  image_quality : String
  analysis_confidence : ℚ
  image_path : String
  image_index : ℕ
  error_msg : String
  fallback_used : Bool
deriving DecidableEq, Repr

/-- The fallback vision record substituted by
`LangGraphFurnitureClassifier._vision_analysis_node`
(`furniture_classifier.py` lines 189–224) when the extraction for image `i`
raises: placeholder attributes cycle through the fallback vocabularies by
`i % len(vocabulary)`. -/
def fallback_vision_result (i : ℕ) (image_path err : String) : VisionResult :=
  { furniture_detected := true
    furniture_type := fallback_types.getD (i % fallback_types.length) ""
    primary_color := fallback_colors.getD (i % fallback_colors.length) ""
    material_appearance := fallback_materials.getD (i % fallback_materials.length) ""
    style_indicators := fallback_styles.getD (i % fallback_styles.length) ""
    condition_visible := "Good"
    brand_visible := false
    unique_features := ["Feature_" ++ toString (i + 1)]
    image_quality := "Medium"
    analysis_confidence := 3/10
    image_path := image_path
    image_index := i
    error_msg := err
    fallback_used := true }

/-- The fallback vision record substituted by the backend variant
`_vision_analysis_node` (`backend/furniture_classifier.py` lines 189–209):
a fixed constant record whose placeholder attributes do not depend on the
image index. -/
def backend_fallback_vision_result (i : ℕ) (image_path err : String) : VisionResult :=
  { furniture_detected := true
    furniture_type := "Furniture"
    primary_color := "Unknown"
    material_appearance := "Mixed materials"
    style_indicators := "Contemporary"
    condition_visible := "Good"
    brand_visible := false
    unique_features := []
    image_quality := "Medium"
    analysis_confidence := 3/10
    image_path := image_path
    image_index := i
    error_msg := err
    fallback_used := false }

/-- The four placeholder attribute fields of a vision record, the part of a
fallback record the grouping engine later compares. -/
def VisionResult.placeholderAttrs (v : VisionResult) :
    String × String × String × String :=
  (v.furniture_type, v.primary_color, v.material_appearance, v.style_indicators)

/-- `_map_condition` (`furniture_classifier.py` lines 764–774 and the
textually identical `backend/furniture_classifier.py` lines 592–602):
dictionary lookup with default `"Used - Good"`. -/
def map_condition (ai_condition : String) : String :=
  if ai_condition = "Excellent" then "Used - Like New"
  else if ai_condition = "Very Good" then "Used - Like New"
  else if ai_condition = "Good" then "Used - Good"
  else if ai_condition = "Fair" then "Used - Fair"
  else if ai_condition = "Poor" then "Used - Fair"
  else if ai_condition = "New" then "New"
  else "Used - Good"

/-- The colour synonym groups of `_calculate_title_similarity`
(`backend/main.py` lines 919–929); each entry pairs the canonical name (the
Python group-dict key with the `_group` suffix already stripped, as done by
`group_name.replace` in `normalize_with_synonyms`) with its members. -/
def title_color_groups : List (String × List String) :=
  [("white", ["white", "off-white", "ivory", "cream", "beige", "ecru", "alabaster"]),
   ("brown", ["brown", "tan", "coffee", "mocha", "chocolate", "chestnut", "mahogany", "walnut"]),
   ("gray", ["gray", "grey", "silver", "charcoal", "slate", "ash", "pewter"]),
   ("black", ["black", "ebony", "onyx", "jet", "coal"]),
   ("red", ["red", "burgundy", "wine", "cherry", "crimson", "maroon", "rust", "reddish"]),
   ("blue", ["blue", "navy", "teal", "turquoise", "indigo", "cerulean"]),
   ("green", ["green", "olive", "sage", "forest", "emerald", "mint"]),
   ("wood", ["wood", "wooden", "oak", "pine", "cedar", "birch", "maple", "teak", "bamboo"])]

/-- The furniture-type synonym groups of `_calculate_title_similarity`
(`backend/main.py` lines 932–939). -/
def title_furniture_synonyms : List (String × List String) :=
  [("sofa", ["sofa", "couch", "sectional", "loveseat", "settee", "divan"]),
   ("chair", ["chair", "armchair", "recliner", "rocker", "stool"]),
   ("table", ["table", "desk", "bureau", "workstation", "console"]),
   ("bed", ["bed", "mattress", "headboard", "footboard", "bedframe"]),
   ("storage", ["dresser", "cabinet", "wardrobe", "armoire", "chest", "hutch", "bookshelf"]),
   ("desk", ["desk", "writing desk", "computer desk", "workstation", "study desk", "office desk"])]

/-- The style/material synonym groups of `_calculate_title_similarity`
(`backend/main.py` lines 942–948). -/
def title_style_synonyms : List (String × List String) :=
  [("modern", ["modern", "contemporary", "minimalist", "sleek", "streamlined"]),
   ("traditional", ["traditional", "classic", "vintage", "antique", "heritage"]),
   ("rustic", ["rustic", "farmhouse", "country", "distressed", "weathered"]),
   ("industrial", ["industrial", "metal", "steel", "iron", "pipe"]),
   ("mission", ["mission", "craftsman", "arts and crafts", "stickley"])]

/-- The merged synonym dictionary `{**color_groups, **furniture_synonyms,
**style_synonyms}` passed to `normalize_with_synonyms` (`backend/main.py`
lines 966–967); the group names are distinct, so the Python dict merge is
concatenation in insertion order. -/
def merged_synonym_groups : List (String × List String) :=
  title_color_groups ++ title_furniture_synonyms ++ title_style_synonyms

/-- `normalize_with_synonyms` (`backend/main.py` lines 950–963): replace each
whitespace-separated word of the title with the canonical name of the first
synonym group containing it. -/
def normalize_with_synonyms (title : String)
    (synonym_groups : List (String × List String)) : String :=
  String.intercalate " " ((pyWords title).map (fun word =>
    match synonym_groups.find? (fun g => g.2.contains word) with
    | some g => g.1
    | none => word))

/-- Modelled from the spec's wording of claim C6: per-field similarity is
0.0 when either value is empty, 1.0 on exact match after lowercase/trim
normalization, and otherwise the token-set Jaccard ratio of the two
non-empty values.  Stated separately from `text_similarity` (which is
embedded from the source) so that the two can be proved equal. -/
def field_similarity_spec (v1 v2 : String) : ℚ :=
  let t1 := pyStrip (pyLower v1)
  let t2 := pyStrip (pyLower v2)
  if t1 = "" ∨ t2 = "" then 0
  else if t1 = t2 then 1
  else
    (((pyWords t1).toFinset ∩ (pyWords t2).toFinset).card : ℚ) /
      (((pyWords t1).toFinset ∪ (pyWords t2).toFinset).card : ℚ)

/-! ## Concrete records used by the scenario theorems -/

/-- A demonstration item: index, type, colour and style set, every other
field fixed. -/
def mkItem (i : ℕ) (ftype color style : String) : Item :=
  { image_index := i, furniture_type := ftype, primary_color := color,
    material_appearance := "", style_indicators := "", condition_visible := "",
    image_path := "", category := "", subcategory := "", material := "",
    style := style, condition := "", detailed_analysis := "",
    classification_confidence := 1/2, facebook_category := "",
    suggested_price := 100 }

/-- The three-record input of the spec's concrete PAIRWISE scenario:
(Chair, Blue), (Chair, Blue, Modern), (Table, Brown). -/
def c3Items : List Item :=
  [mkItem 0 "Chair" "Blue" "", mkItem 1 "Chair" "Blue" "Modern",
   mkItem 2 "Table" "Brown" ""]

/-- A three-record batch for exercising the AI grouping path. -/
def demoItems : List Item :=
  [mkItem 0 "Chair" "Blue" "", mkItem 1 "Chair" "Blue" "",
   mkItem 2 "Table" "Brown" ""]

/-- A parsed LLM grouping response whose single group covers only indices
0 and 1 of a three-image batch: a well-formed but incomplete partition. -/
def aiTwoOfThree : Option (List AIGroup) :=
  some [{ group_id := some "group_0", image_indices := some [0, 1],
          reasoning := some "Same blue chair", furniture_description := some "Blue Chair" }]

/-- An attribute record whose only non-empty compared field is `style`. -/
def styleOnlyAttrs : FurnitureAttributes :=
  { type := "", color := "", material := "", style := "modern",
    condition := "", size_indicators := [] }

/-- Two records with the same furniture type but different colours. -/
def heurItems : List Item :=
  [mkItem 0 "Chair" "Blue" "", mkItem 1 "Chair" "Brown" ""]

/-! ## Helper lemmas -/

theorem greedyGroups_length_le (absorb : ℕ → ℕ → Bool) :
    ∀ (fuel : ℕ) (pending : List ℕ),
      (greedyGroups absorb fuel pending).length ≤ pending.length := by
  intro fuel
  induction fuel with
  | zero => intro pending; simp [greedyGroups]
  | succ n ih =>
    intro pending
    cases pending with
    | nil => simp [greedyGroups]
    | cons i rest =>
      simp only [greedyGroups, List.length_cons]
      exact Nat.succ_le_succ (le_trans (ih _) (List.length_filter_le _ _))

theorem greedyGroups_flatten_perm (absorb : ℕ → ℕ → Bool) :
    ∀ (fuel : ℕ) (pending : List ℕ), pending.length ≤ fuel →
      ((greedyGroups absorb fuel pending).flatten).Perm pending := by
  intro fuel
  induction fuel with
  | zero =>
    intro pending h
    have hp : pending = [] := List.length_eq_zero.mp (Nat.le_zero.mp h)
    subst hp
    simp [greedyGroups]
  | succ n ih =>
    intro pending h
    cases pending with
    | nil => simp [greedyGroups]
    | cons i rest =>
      simp only [greedyGroups, List.flatten_cons]
      have hlen : (rest.filter (fun j => !(absorb i j))).length ≤ n :=
        le_trans (List.length_filter_le _ _) (Nat.le_of_succ_le_succ h)
      have h2 := ih _ hlen
      have step1 :
          ((i :: rest.filter (fun j => absorb i j)) ++
            (greedyGroups absorb n (rest.filter (fun j => !(absorb i j)))).flatten).Perm
          (i :: (rest.filter (fun j => absorb i j) ++
            rest.filter (fun j => !(absorb i j)))) := by
        simpa using (List.Perm.append_left (rest.filter (fun j => absorb i j)) h2).cons i
      exact step1.trans ((List.filter_append_perm _ rest).cons i)

theorem pyWordsAux_ne_nil (l acc : List Char)
    (h : (∃ c ∈ l, c.isWhitespace = false) ∨ acc ≠ []) :
    pyWordsAux l acc ≠ [] := by
  induction l generalizing acc with
  | nil =>
    have hacc : acc ≠ [] := by
      rcases h with ⟨c, hc, _⟩ | hacc
      · exact absurd hc (List.not_mem_nil c)
      · exact hacc
    simp [pyWordsAux, List.isEmpty_iff, hacc]
  | cons c cs ih =>
    cases hw : c.isWhitespace with
    | true =>
      by_cases hacc : acc = []
      · subst hacc
        have hcs : ∃ d ∈ cs, d.isWhitespace = false := by
          rcases h with ⟨d, hd, hdw⟩ | hacc'
          · rcases List.mem_cons.mp hd with rfl | hd'
            · rw [hw] at hdw; exact absurd hdw (by simp)
            · exact ⟨d, hd', hdw⟩
          · exact absurd rfl hacc'
        simpa [pyWordsAux, hw] using ih [] (Or.inl hcs)
      · simp [pyWordsAux, hw, List.isEmpty_iff, hacc]
    | false =>
      have := ih (c :: acc) (Or.inr (by simp))
      simpa [pyWordsAux, hw] using this

theorem dropWhile_exists_not (p : Char → Bool) :
    ∀ l : List Char, l.dropWhile p ≠ [] → ∃ c ∈ l.dropWhile p, p c = false := by
  intro l
  induction l with
  | nil => intro h; exact absurd rfl h
  | cons c cs ih =>
    intro h
    by_cases hp : p c
    · rw [List.dropWhile_cons, if_pos hp] at h ⊢
      exact ih h
    · rw [List.dropWhile_cons, if_neg hp]
      exact ⟨c, by simp, by simpa using hp⟩

theorem pyStrip_has_nonspace (s : String) (h : pyStrip s ≠ "") :
    ∃ c ∈ (pyStrip s).data, c.isWhitespace = false := by
  have hdata : (pyStrip s).data ≠ [] := by
    intro hnil
    exact h (String.ext (by simp [hnil]))
  set m := (s.data.dropWhile Char.isWhitespace).reverse with hm
  have hdrop : m.dropWhile Char.isWhitespace ≠ [] := by
    intro hnil
    apply hdata
    simp [pyStrip, ← hm, hnil]
  obtain ⟨c, hc, hcw⟩ := dropWhile_exists_not Char.isWhitespace m hdrop
  refine ⟨c, ?_, hcw⟩
  have : (pyStrip s).data = (m.dropWhile Char.isWhitespace).reverse := by
    simp [pyStrip, ← hm]
  rw [this, List.mem_reverse]
  exact hc

theorem pyWords_toFinset_nonempty (s : String) (h : pyStrip s ≠ "") :
    (pyWords (pyStrip s)).toFinset.Nonempty := by
  obtain ⟨c, hc, hcw⟩ := pyStrip_has_nonspace s h
  have haux : pyWordsAux (pyStrip s).data [] ≠ [] :=
    pyWordsAux_ne_nil _ _ (Or.inl ⟨c, hc, hcw⟩)
  have hwords : pyWords (pyStrip s) ≠ [] := by
    simpa [pyWords] using haux
  rw [Finset.nonempty_iff_ne_empty]
  intro hempty
  exact hwords ((List.toFinset_eq_empty_iff _).mp hempty)

theorem text_similarity_eq_spec (v1 v2 : String) :
    text_similarity v1 v2 = field_similarity_spec v1 v2 := by
  unfold text_similarity field_similarity_spec
  by_cases h0 : pyStrip (pyLower v1) = "" ∨ pyStrip (pyLower v2) = ""
  · simp only [if_pos h0]
  · push_neg at h0
    obtain ⟨h1, h2⟩ := h0
    simp only [if_neg (by push_neg; exact ⟨h1, h2⟩ :
      ¬(pyStrip (pyLower v1) = "" ∨ pyStrip (pyLower v2) = ""))]
    by_cases heq : pyStrip (pyLower v1) = pyStrip (pyLower v2)
    · simp only [if_pos heq]
    · simp only [if_neg heq]
      have w1 := pyWords_toFinset_nonempty (pyLower v1) h1
      have w2 := pyWords_toFinset_nonempty (pyLower v2) h2
      have hu : 0 < ((pyWords (pyStrip (pyLower v1))).toFinset ∪
          (pyWords (pyStrip (pyLower v2))).toFinset).card :=
        Finset.card_pos.mpr (w1.mono Finset.subset_union_left)
      simp only [if_pos (And.intro w1 w2), if_pos hu]

set_option maxHeartbeats 1000000 in
theorem text_similarity_nonneg (v1 v2 : String) : 0 ≤ text_similarity v1 v2 := by
  simp only [text_similarity]
  split_ifs <;> try norm_num
  positivity

set_option maxHeartbeats 1000000 in
theorem text_similarity_le_one (v1 v2 : String) : text_similarity v1 v2 ≤ 1 := by
  simp only [text_similarity]
  split_ifs with h0 heq hne hpos <;> try norm_num
  rw [div_le_one (by exact_mod_cast hpos)]
  exact_mod_cast Finset.card_le_card
    (Finset.Subset.trans Finset.inter_subset_left Finset.subset_union_left)

theorem text_similarity_self (v : String) :
    text_similarity v v = if pyStrip (pyLower v) = "" then 0 else 1 := by
  unfold text_similarity
  by_cases h : pyStrip (pyLower v) = "" <;> simp [h]

theorem calculate_furniture_similarity_eq (a b : FurnitureAttributes) :
    calculate_furniture_similarity a b =
      2/5 * text_similarity a.type b.type + 3/10 * text_similarity a.color b.color +
      1/5 * text_similarity a.material b.material +
      1/10 * text_similarity a.style b.style := by
  have hbody : calculate_furniture_similarity a b =
      text_similarity a.type b.type * (2/5) + (text_similarity a.color b.color * (3/10) +
      (text_similarity a.material b.material * (1/5) +
      (text_similarity a.style b.style * (1/10) + 0))) := rfl
  rw [hbody]
  ring

theorem calculate_furniture_similarity_nonneg (a b : FurnitureAttributes) :
    0 ≤ calculate_furniture_similarity a b := by
  rw [calculate_furniture_similarity_eq]
  have h1 := text_similarity_nonneg a.type b.type
  have h2 := text_similarity_nonneg a.color b.color
  have h3 := text_similarity_nonneg a.material b.material
  have h4 := text_similarity_nonneg a.style b.style
  linarith

theorem calculate_furniture_similarity_le_one (a b : FurnitureAttributes) :
    calculate_furniture_similarity a b ≤ 1 := by
  rw [calculate_furniture_similarity_eq]
  have h1 := text_similarity_le_one a.type b.type
  have h2 := text_similarity_le_one a.color b.color
  have h3 := text_similarity_le_one a.material b.material
  have h4 := text_similarity_le_one a.style b.style
  linarith

theorem flatten_singletons {α : Type} (l : List α) :
    (l.map (fun x => [x])).flatten = l := by
  induction l with
  | nil => rfl
  | cons a t ih => simp [ih]

theorem grouping_node_fallback_spec (items : List Item) :
    ((grouping_node_fallback items).map (·.all_items)).flatten = items ∧
    (grouping_node_fallback items).length = items.length := by
  constructor
  · have hmap : (grouping_node_fallback items).map (·.all_items) =
        items.enum.map (fun p => [p.2]) := by
      unfold grouping_node_fallback
      rw [List.map_map]
      rfl
    have hmap2 : items.enum.map (fun p => ([p.2] : List Item)) =
        (items.enum.map Prod.snd).map (fun x => [x]) := by
      rw [List.map_map]
      rfl
    rw [hmap, hmap2, flatten_singletons, List.enum_map_snd]
  · simp [grouping_node_fallback]

theorem intercalate_singleton (sep a : String) :
    String.intercalate sep [a] = a := by
  simp [String.intercalate]
  rfl

/-! ## Claim theorems -/

/-- C1 (amended): the structured-comparison and heuristic grouping
strategies partition the input — the concatenation of the emitted index
groups is a permutation of the input indices (no omissions, no duplicates)
and the number of groups is at most the number of input records.  (The claim
as stated is false of the AI grouping path, see the counterexample.) -/
theorem claim_C1_amended_partition (items : List Item) :
    ((structuredGroupIndices items).flatten).Perm (List.range items.length) ∧
    (structuredGroupIndices items).length ≤ items.length ∧
    ((heuristicGroupIndices items).flatten).Perm (List.range items.length) ∧
    (heuristicGroupIndices items).length ≤ items.length := by
  refine ⟨greedyGroups_flatten_perm _ _ _ (by simp),
    le_trans (greedyGroups_length_le _ _ _) (by simp),
    greedyGroups_flatten_perm _ _ _ (by simp),
    le_trans (greedyGroups_length_le _ _ _) (by simp)⟩

section
attribute [local semireducible] Rat.add Rat.mul Rat.inv Rat.sub

/-- C1 counterexample: on a three-record batch, `_ai_grouping_agent` accepts
an LLM partition covering only indices 0 and 1 — the returned groups contain
only the first two records, so record 2 appears in no group and the claimed
partition invariant fails for this grouping call. -/
theorem claim_C1_counterexample :
    (ai_grouping_agent demoItems aiTwoOfThree).toOption.map
        (fun gs => (gs.map (·.all_items)).flatten) =
      some [mkItem 0 "Chair" "Blue" "", mkItem 1 "Chair" "Blue" ""] ∧
    (mkItem 2 "Table" "Brown" "") ∉
      [mkItem 0 "Chair" "Blue" "", mkItem 1 "Chair" "Blue" ""] ∧
    demoItems.length = 3 := by decide

/-- C2 counterexample: `_grouping_node` accepts the 2-of-3 partial partition
returned by the HOLISTIC strategy as-is — the result is the partial group
list (not the individual-groups fallback and not any PAIRWISE result), and
input record 2 is silently dropped. -/
theorem claim_C2_counterexample :
    (grouping_node demoItems aiTwoOfThree).map
        (fun gs => (gs.map (·.all_items)).flatten) =
      some [mkItem 0 "Chair" "Blue" "", mkItem 1 "Chair" "Blue" ""] ∧
    grouping_node demoItems aiTwoOfThree ≠ some (grouping_node_fallback demoItems) ∧
    (mkItem 2 "Table" "Brown" "") ∉
      [mkItem 0 "Chair" "Blue" "", mkItem 1 "Chair" "Blue" ""] := by decide

/-- C2 (amended): the engine only rejects a HOLISTIC response that is
unparseable or lacks the "groups" key — `_ai_grouping_agent` raises and
`_grouping_node` then falls back to one individual group per item (there is
no PAIRWISE strategy in this engine); a well-formed partial partition is
accepted without validation and uncovered indices are silently dropped
(see the counterexample). -/
theorem claim_C2_amended_reject_only_parse_failure (items : List Item)
    (h : 1 < items.length) :
    grouping_node items none = some (grouping_node_fallback items) ∧
    (grouping_node_fallback items).length = items.length ∧
    ((grouping_node_fallback items).map (·.all_items)).flatten = items := by
  refine ⟨?_, (grouping_node_fallback_spec items).2, (grouping_node_fallback_spec items).1⟩
  unfold grouping_node
  rw [if_neg (by omega)]
  rfl

/-- C2 witness: the parse-failure fallback on a concrete two-item batch. -/
theorem claim_C2_amended_reject_only_parse_failure_witness :
    grouping_node [mkItem 0 "Chair" "Blue" "", mkItem 1 "Table" "Brown" ""] none =
      some (grouping_node_fallback
        [mkItem 0 "Chair" "Blue" "", mkItem 1 "Table" "Brown" ""]) :=
  (claim_C2_amended_reject_only_parse_failure _ (by decide)).1

/-- C3: greedy PAIRWISE clustering of the spec's three-record scenario
(Chair/Blue), (Chair/Blue/Modern), (Table/Brown): records 0 and 1 score
0.4 + 0.3 = 0.7 ≥ 0.7 and group together, record 2 stands alone — exactly
two groups of sizes [2, 1]. -/
theorem claim_C3_pairwise_scenario :
    calculate_furniture_similarity
        (FurnitureAttributes.from_item (mkItem 0 "Chair" "Blue" ""))
        (FurnitureAttributes.from_item (mkItem 1 "Chair" "Blue" "Modern")) = 7/10 ∧
    structuredGroupIndices c3Items = [[0, 1], [2]] ∧
    (group_by_structured_comparison c3Items).map (·.all_items) =
      [[mkItem 0 "Chair" "Blue" "", mkItem 1 "Chair" "Blue" "Modern"],
       [mkItem 2 "Table" "Brown" ""]] ∧
    (structuredGroupIndices c3Items).map List.length = [2, 1] := by decide

/-- C4 counterexample: "walnut" and "brown" belong to the same colour
synonym family, yet the per-field scorer used by the structured comparison
gives their colour fields similarity 0, not an exact match — no synonym
normalization is applied before per-field comparison. -/
theorem claim_C4_counterexample :
    "walnut" ∈ (("brown_family",
        ["brown", "tan", "coffee", "mocha", "chocolate", "walnut", "oak"]) :
        String × List String).2 ∧
    ("brown_family", ["brown", "tan", "coffee", "mocha", "chocolate", "walnut", "oak"])
      ∈ color_groups ∧
    text_similarity "walnut" "brown" = 0 ∧ (0 : ℚ) ≠ 1 := by decide

/-- C4 (amended): synonym normalization exists only in the title-similarity
path (`normalize_with_synonyms` in `backend/main.py`): there, each word that
belongs to a synonym family is replaced by the family's canonical name, so
same-family words such as "walnut" and "brown" normalize to the same string;
the structured per-field scorer applies no synonym lookup (its colour-field
similarity for that pair is 0, see the counterexample). -/
theorem claim_C4_amended_synonyms :
    (∀ (w : String) (g : String × List String), pyWords w = [w] →
        merged_synonym_groups.find? (fun p => p.2.contains w) = some g →
        normalize_with_synonyms w merged_synonym_groups = g.1) ∧
    normalize_with_synonyms "walnut" merged_synonym_groups = "brown" ∧
    normalize_with_synonyms "brown" merged_synonym_groups = "brown" ∧
    text_similarity "walnut" "brown" = 0 := by
  refine ⟨?_, by decide, by decide, by decide⟩
  intro w g hw hfind
  unfold normalize_with_synonyms
  rw [hw]
  simp only [List.map_cons, List.map_nil, hfind]
  exact intercalate_singleton _ _

/-- C4 witness: instantiating the amended normalization property at
"walnut", whose first matching synonym group is the brown family. -/
theorem claim_C4_amended_synonyms_witness :
    pyWords "walnut" = ["walnut"] ∧
    normalize_with_synonyms "walnut" merged_synonym_groups =
      (("brown",
        ["brown", "tan", "coffee", "mocha", "chocolate", "chestnut", "mahogany",
         "walnut"]) : String × List String).1 :=
  ⟨by decide, claim_C4_amended_synonyms.1 "walnut" _ (by decide) (by decide)⟩

/-- C5 counterexample: the record whose only non-empty compared field is
`style` has self-similarity 0.1, not 1.0 — refuting the claim for records
with at least one (but not all) non-empty compared fields. -/
theorem claim_C5_counterexample :
    styleOnlyAttrs.style ≠ "" ∧
    calculate_furniture_similarity styleOnlyAttrs styleOnlyAttrs = 1/10 ∧
    (1/10 : ℚ) ≠ 1 := by decide

end

/-- C5 (amended): the self-similarity of a record equals 1.0 exactly when
all four compared fields (furniture type, colour, material, style) are
non-empty after lowercase/trim normalization; otherwise it is the sum of
the weights of the non-empty fields, which is < 1. -/
theorem claim_C5_amended_identity (a : FurnitureAttributes) :
    calculate_furniture_similarity a a = 1 ↔
      (pyStrip (pyLower a.type) ≠ "" ∧ pyStrip (pyLower a.color) ≠ "" ∧
       pyStrip (pyLower a.material) ≠ "" ∧ pyStrip (pyLower a.style) ≠ "") := by
  rw [calculate_furniture_similarity_eq, text_similarity_self, text_similarity_self,
    text_similarity_self, text_similarity_self]
  by_cases h1 : pyStrip (pyLower a.type) = "" <;>
    by_cases h2 : pyStrip (pyLower a.color) = "" <;>
      by_cases h3 : pyStrip (pyLower a.material) = "" <;>
        by_cases h4 : pyStrip (pyLower a.style) = "" <;>
          simp [h1, h2, h3, h4] <;> norm_num

/-- C6: the per-field similarity of the structured scorer coincides with the
spec's description (0.0 when either value is empty, 1.0 on exact match after
lowercase/trim, token-set Jaccard otherwise), the total is the weighted sum
with weights 0.4 / 0.3 / 0.2 / 0.1, and the resulting score always lies in
[0, 1]. -/
theorem claim_C6_similarity_formula :
    (∀ v1 v2 : String, text_similarity v1 v2 = field_similarity_spec v1 v2) ∧
    (∀ a b : FurnitureAttributes, calculate_furniture_similarity a b =
      2/5 * text_similarity a.type b.type + 3/10 * text_similarity a.color b.color +
      1/5 * text_similarity a.material b.material +
      1/10 * text_similarity a.style b.style) ∧
    (∀ a b : FurnitureAttributes,
      0 ≤ calculate_furniture_similarity a b ∧ calculate_furniture_similarity a b ≤ 1) :=
  ⟨text_similarity_eq_spec, calculate_furniture_similarity_eq,
   fun a b => ⟨calculate_furniture_similarity_nonneg a b,
     calculate_furniture_similarity_le_one a b⟩⟩

section
attribute [local semireducible] Rat.add Rat.mul Rat.inv Rat.sub

/-- C7 counterexample: two records of the same furniture type ("Chair") but
different colours ("Blue" vs "Brown") ARE placed in one group by the
heuristic strategy, because `_should_group_heuristic` also groups on a
shared furniture-category keyword regardless of colour. -/
theorem claim_C7_counterexample :
    (mkItem 0 "Chair" "Blue" "").primary_color ≠
      (mkItem 1 "Chair" "Brown" "").primary_color ∧
    should_group_heuristic "chair" "blue" "chair" "brown" = true ∧
    heuristicGroupIndices heurItems = [[0, 1]] := by decide

end

/-- C7 (amended): the heuristic strategy absorbs a later record when
furniture type and colour both match exactly (no synonym normalization is
applied to the exact-match test), OR when the two furniture types each
contain a keyword of the same furniture-category family — the latter test
ignores colour entirely, so equal-category records with different colours
can share a group (see the counterexample). -/
theorem claim_C7_amended_heuristic :
    (∀ t1 c1 t2 c2 : String, t1 ≠ "" → t2 ≠ "" → t1 = t2 → c1 ≠ "" → c2 ≠ "" →
      c1 = c2 → should_group_heuristic t1 c1 t2 c2 = true) ∧
    (∀ t1 c1 t2 c2 : String,
      furniture_synonyms.any (fun cat =>
        cat.2.any (fun kw => pyIn kw t1) && cat.2.any (fun kw => pyIn kw t2)) = true →
      should_group_heuristic t1 c1 t2 c2 = true) := by
  constructor
  · intro t1 c1 t2 c2 h1 h2 h3 h4 h5 h6
    unfold should_group_heuristic
    rw [if_pos ⟨h1, h2, h3, h4, h5, h6⟩]
  · intro t1 c1 t2 c2 h
    unfold should_group_heuristic
    split_ifs with hcond
    · rfl
    · exact h

/-- C7 witness: the exact type-and-colour branch of the amended heuristic
property at concrete matching inputs. -/
theorem claim_C7_amended_heuristic_witness :
    should_group_heuristic "chair" "blue" "chair" "blue" = true :=
  claim_C7_amended_heuristic.1 "chair" "blue" "chair" "blue" (by decide) (by decide)
    rfl (by decide) (by decide) rfl

/-- C8 (evaluating the code at the failing input): `_grouping_node` on an
empty batch hits the uncaught `IndexError` of `all_items[0]` (modelled as
`none`), contradicting the claim that zero records yield an empty group
list without error; the visual-grouping implementation does satisfy the
claim — empty input yields `[]` and a single record yields exactly one
group containing it, as does `_grouping_node`'s single-record branch. -/
theorem claim_C8_zero_and_single_record :
    (∀ resp : Option (List AIGroup), grouping_node [] resp = none) ∧
    group_furniture_images [] = [] ∧
    (∀ x : Item, (group_furniture_images [x]).map (·.all_items) = [[x]]) ∧
    (∀ (x : Item) (resp : Option (List AIGroup)),
      grouping_node [x] resp = some [singleItemGroup [x] x] ∧
      (singleItemGroup [x] x).all_items = [x]) :=
  ⟨fun _ => rfl, rfl, fun _ => rfl, fun _ _ => ⟨rfl, rfl⟩⟩

/-- C9 counterexample: in the backend variant of `_vision_analysis_node`,
the fallback records substituted for two failed images at the distinct
indices 0 and 1 carry identical placeholder attributes (the fixed constant
record), refuting the rotating-vocabulary claim for that cited code. -/
theorem claim_C9_counterexample :
    (backend_fallback_vision_result 0 "img0.jpg" "err0").placeholderAttrs =
      (backend_fallback_vision_result 1 "img1.jpg" "err1").placeholderAttrs ∧
    (backend_fallback_vision_result 0 "img0.jpg" "err0").image_index ≠
      (backend_fallback_vision_result 1 "img1.jpg" "err1").image_index := by decide

/-- C9 (amended): both implementations substitute a fallback record that is
a deterministic function of the image's batch position (same index, same
placeholder attributes, whatever the path or error text); the rotating
vocabulary making indices 0 and 1 differ holds in the root LangGraph
classifier, while the backend variant substitutes a fixed constant
attribute set. -/
theorem claim_C9_amended_determinism :
    (∀ (i : ℕ) (p e q f : String),
      (fallback_vision_result i p e).placeholderAttrs =
        (fallback_vision_result i q f).placeholderAttrs) ∧
    (∀ (p e q f : String),
      (fallback_vision_result 0 p e).placeholderAttrs ≠
        (fallback_vision_result 1 q f).placeholderAttrs) ∧
    (∀ (i : ℕ) (p e q f : String),
      (backend_fallback_vision_result i p e).placeholderAttrs =
        (backend_fallback_vision_result i q f).placeholderAttrs) := by
  refine ⟨fun i p e q f => rfl, fun p e q f h => ?_, fun i p e q f => rfl⟩
  have h0 : (fallback_vision_result 0 "" "").placeholderAttrs =
      (fallback_vision_result 1 "" "").placeholderAttrs := h
  exact absurd h0 (by decide)

/-- C9 witness: fallback determinism instantiated at index 5 with two
different image paths and error texts. -/
theorem claim_C9_amended_determinism_witness :
    (fallback_vision_result 5 "a.jpg" "e1").placeholderAttrs =
      (fallback_vision_result 5 "b.jpg" "e2").placeholderAttrs :=
  claim_C9_amended_determinism.1 5 "a.jpg" "e1" "b.jpg" "e2"

/-- C10: `_map_condition` is total with range exactly
{New, Used - Like New, Used - Good, Used - Fair}: every input maps into the
four-value set, each value is attained, "Poor" maps to "Used - Fair", any
unrecognized input maps to "Used - Good", and no output is ever "Poor". -/
theorem claim_C10_condition_mapping :
    (∀ s : String, map_condition s = "New" ∨ map_condition s = "Used - Like New" ∨
      map_condition s = "Used - Good" ∨ map_condition s = "Used - Fair") ∧
    map_condition "Poor" = "Used - Fair" ∧
    (map_condition "New" = "New" ∧ map_condition "Excellent" = "Used - Like New" ∧
     map_condition "Good" = "Used - Good" ∧ map_condition "Fair" = "Used - Fair") ∧
    (∀ s : String, s ≠ "Excellent" → s ≠ "Very Good" → s ≠ "Good" → s ≠ "Fair" →
      s ≠ "Poor" → s ≠ "New" → map_condition s = "Used - Good") ∧
    (∀ s : String, map_condition s ≠ "Poor") := by
  refine ⟨?_, by decide, ⟨by decide, by decide, by decide, by decide⟩, ?_, ?_⟩
  · intro s; unfold map_condition; split_ifs <;> simp
  · intro s h1 h2 h3 h4 h5 h6
    unfold map_condition
    rw [if_neg h1, if_neg h2, if_neg h3, if_neg h4, if_neg h5, if_neg h6]
  · intro s; unfold map_condition; split_ifs <;> decide

/-- C10 witness: an input outside the condition vocabulary maps to
"Used - Good". -/
theorem claim_C10_condition_mapping_witness :
    map_condition "Banana" = "Used - Good" :=
  claim_C10_condition_mapping.2.2.2.1 "Banana" (by decide) (by decide) (by decide)
    (by decide) (by decide) (by decide)

end FurnitureMarket
